import Mathlib

/-!
TodoList: client-side state reconciliation

Shallow embedding of the handlers of `frontend/src/components/TodoList.jsx`
(`fetchTodos`, `createTodo`, `updateTodo`, `deleteTodo`, `toggleComplete`,
`handleEdit`, `saveEdit` and the dialog `onChange` handlers).

The React state of the component is a record `State`.  The two external
collaborators are made explicit: every `toast(...)` call is appended to the log
`State.toasts`, every `axios` call is appended to the log `State.requests`, and
the outcome of the awaited call (resolved with `response.data`, or rejected) is
an argument of the handler.

Each asynchronous handler is split at its `await`: the part that runs when the
response arrives is the `...Done` function, which receives the `todos` value the
handler closed over when it was called.  The plain handler is the case in which
nothing else happens between the call and its response.

The handlers never inspect `response.data`.  The model `State` takes the body
of a resolved call to have the shape the service contract names; the section
`Raw` drops that assumption for `fetchTodos`.
-/

namespace TodoList

/-! ## Data model -/

/-- Todo record, as the service returns it and as the component renders it. -/
structure Todo where
  id : String
  title : String
  description : String
  completed : Bool
  created_at : String
deriving DecidableEq, Repr

/-- Draft held by the create dialog: the `newTodo` state object. -/
structure NewTodo where
  title : String
  description : String
deriving DecidableEq, Repr

/-- Body of a PUT request: the `updates` object, any subset of the three
mutable fields; a field that is `undefined` in the source is `none`. -/
structure Updates where
  title : Option String := none
  description : Option String := none
  completed : Option Bool := none
deriving DecidableEq, Repr

/-- Argument of a `toast(...)` call; `variant` is `none` when the call site
gives no variant. -/
structure Toast where
  title : String
  description : String
  variant : Option String := none
deriving DecidableEq, Repr

/-- One call of the REST service made through `axios`. -/
inductive Request where
  | get
  | post (body : NewTodo)
  | put (todoId : String) (updates : Updates)
  | delete (todoId : String)
deriving DecidableEq, Repr

/-- Outcome of an awaited `axios` call: the promise resolves with
`response.data`, or it rejects and control enters the `catch` block. -/
inductive Reply (α : Type) where
  | resolved (data : α)
  | rejected
deriving DecidableEq, Repr

/-- React state of the `TodoList` component, with the log of notifications
and the log of service calls. -/
structure State where
  todos : List Todo := []
  newTodo : NewTodo := ⟨"", ""⟩
  editingTodo : Option Todo := none
  isCreateDialogOpen : Bool := false
  isEditDialogOpen : Bool := false
  toasts : List Toast := []
  requests : List Request := []
deriving DecidableEq, Repr

/-- State of the component when it is first mounted: the `useState` defaults. -/
def init : State := {}

/-! ## String trimming -/

/-- White space and line terminators removed by `String.prototype.trim`. -/
def isWhiteSpace (c : Char) : Bool :=
  let n := c.toNat
  n == 0x09 || n == 0x0A || n == 0x0B || n == 0x0C || n == 0x0D || n == 0x20 ||
  n == 0xA0 || n == 0x1680 || (0x2000 ≤ n && n ≤ 0x200A) || n == 0x2028 ||
  n == 0x2029 || n == 0x202F || n == 0x205F || n == 0x3000 || n == 0xFEFF

/-- The method `trim` of a string: leading and trailing white space removed. -/
def trim (s : String) : String :=
  ⟨((s.data.dropWhile isWhiteSpace).reverse.dropWhile isWhiteSpace).reverse⟩

/-! ## Collaborators -/

/-- The call `toast(t)`: the notification is handed to the sink. -/
def toast (s : State) (t : Toast) : State :=
  { s with toasts := s.toasts ++ [t] }

/-- An `axios` call is issued. -/
def send (s : State) (r : Request) : State :=
  { s with requests := s.requests ++ [r] }

/-! ## Handlers -/

/-- Rest of `fetchTodos` after `await axios.get`. -/
def fetchTodosDone (s : State) : Reply (List Todo) → State
  | .resolved data => { s with todos := data }
  | .rejected => toast s ⟨"Error", "Failed to fetch todos", some "destructive"⟩

/-- Handler `fetchTodos`. -/
def fetchTodos (s : State) (reply : Reply (List Todo)) : State :=
  fetchTodosDone (send s .get) reply

/-- Rest of `createTodo` after `await axios.post`; `todos` is the value the
handler closed over. -/
def createTodoDone (s : State) (todos : List Todo) : Reply Todo → State
  | .resolved data =>
    toast { s with todos := data :: todos, newTodo := ⟨"", ""⟩, isCreateDialogOpen := false }
      ⟨"Success", "Todo created successfully", none⟩
  | .rejected => toast s ⟨"Error", "Failed to create todo", some "destructive"⟩

/-- Handler `createTodo`. -/
def createTodo (s : State) (reply : Reply Todo) : State :=
  if trim s.newTodo.title = "" then
    toast s ⟨"Error", "Todo title is required", some "destructive"⟩
  else
    createTodoDone (send s (.post s.newTodo)) s.todos reply

/-- Rest of `updateTodo` after `await axios.put`; `todos` is the value the
handler closed over. -/
def updateTodoDone (s : State) (todos : List Todo) (todoId : String) (updates : Updates) :
    Reply Todo → State
  | .resolved data =>
    let s1 := { s with todos := todos.map (fun todo => if todo.id = todoId then data else todo) }
    match updates.completed with
    | some completed =>
      toast s1 ⟨"Success", if completed then "Todo completed!" else "Todo marked as incomplete",
        none⟩
    | none => s1
  | .rejected => toast s ⟨"Error", "Failed to update todo", some "destructive"⟩

/-- Handler `updateTodo`. -/
def updateTodo (s : State) (todoId : String) (updates : Updates) (reply : Reply Todo) : State :=
  updateTodoDone (send s (.put todoId updates)) s.todos todoId updates reply

/-- Rest of `deleteTodo` after `await axios.delete`; `todos` is the value the
handler closed over. -/
def deleteTodoDone (s : State) (todos : List Todo) (todoId : String) : Reply Unit → State
  | .resolved _ =>
    toast { s with todos := todos.filter (fun todo => todo.id ≠ todoId) }
      ⟨"Success", "Todo deleted successfully", none⟩
  | .rejected => toast s ⟨"Error", "Failed to delete todo", some "destructive"⟩

/-- Handler `deleteTodo`. -/
def deleteTodo (s : State) (todoId : String) (reply : Reply Unit) : State :=
  deleteTodoDone (send s (.delete todoId)) s.todos todoId reply

/-- Handler `toggleComplete`. -/
def toggleComplete (s : State) (todo : Todo) (reply : Reply Todo) : State :=
  updateTodo s todo.id { completed := some (!todo.completed) } reply

/-- Handler `handleEdit`: the draft is a copy of the record. -/
def handleEdit (s : State) (todo : Todo) : State :=
  { s with editingTodo := some todo, isEditDialogOpen := true }

/-- Rest of `saveEdit` after `await updateTodo(...)`, where `s` is the state
that `updateTodo` left. -/
def saveEditDone (s : State) : State :=
  toast { s with isEditDialogOpen := false, editingTodo := none }
    ⟨"Success", "Todo updated successfully", none⟩

/-- Handler `saveEdit`.  Reading `editingTodo.title` throws a `TypeError`
when `editingTodo` is `null`. -/
def saveEdit (s : State) (reply : Reply Todo) : Except String State :=
  match s.editingTodo with
  | none => .error "TypeError"
  | some editingTodo =>
    if trim editingTodo.title = "" then
      .ok (toast s ⟨"Error", "Todo title is required", some "destructive"⟩)
    else
      .ok (saveEditDone (updateTodo s editingTodo.id
        { title := some editingTodo.title, description := some editingTodo.description } reply))

/-! ## Dialog handlers -/

/-- The `onChange` handler of the title input of the create dialog. -/
def setNewTodoTitle (s : State) (value : String) : State :=
  { s with newTodo := { s.newTodo with title := value } }

/-- The `onChange` handler of the description input of the create dialog. -/
def setNewTodoDescription (s : State) (value : String) : State :=
  { s with newTodo := { s.newTodo with description := value } }

/-- The `onChange` handler of the title input of the edit dialog; the input
is rendered only while `editingTodo` is set. -/
def setEditingTodoTitle (s : State) (value : String) : State :=
  match s.editingTodo with
  | some editingTodo => { s with editingTodo := some { editingTodo with title := value } }
  | none => s

/-- The `onChange` handler of the description input of the edit dialog; the
input is rendered only while `editingTodo` is set. -/
def setEditingTodoDescription (s : State) (value : String) : State :=
  match s.editingTodo with
  | some editingTodo => { s with editingTodo := some { editingTodo with description := value } }
  | none => s

/-- The setter `setIsCreateDialogOpen`, the `onOpenChange` of the create dialog. -/
def setIsCreateDialogOpen (s : State) (value : Bool) : State :=
  { s with isCreateDialogOpen := value }

/-- The setter `setIsEditDialogOpen`, the `onOpenChange` of the edit dialog. -/
def setIsEditDialogOpen (s : State) (value : Bool) : State :=
  { s with isEditDialogOpen := value }

/-! ## Sequences of handler calls -/

/-- One call of a handler, with the outcome of the service call it may make. -/
inductive Action where
  | fetchTodos (reply : Reply (List Todo))
  | createTodo (reply : Reply Todo)
  | updateTodo (todoId : String) (updates : Updates) (reply : Reply Todo)
  | deleteTodo (todoId : String) (reply : Reply Unit)
  | toggleComplete (todo : Todo) (reply : Reply Todo)
  | handleEdit (todo : Todo)
  | saveEdit (reply : Reply Todo)
  | setNewTodoTitle (value : String)
  | setNewTodoDescription (value : String)
  | setEditingTodoTitle (value : String)
  | setEditingTodoDescription (value : String)
  | setIsCreateDialogOpen (value : Bool)
  | setIsEditDialogOpen (value : Bool)
deriving DecidableEq, Repr

/-- The state after one handler call.  A `saveEdit` that throws has set no
state. -/
def step (s : State) : Action → State
  | .fetchTodos reply => fetchTodos s reply
  | .createTodo reply => createTodo s reply
  | .updateTodo todoId updates reply => updateTodo s todoId updates reply
  | .deleteTodo todoId reply => deleteTodo s todoId reply
  | .toggleComplete todo reply => toggleComplete s todo reply
  | .handleEdit todo => handleEdit s todo
  | .saveEdit reply =>
    match saveEdit s reply with
    | .ok s1 => s1
    | .error _ => s
  | .setNewTodoTitle value => setNewTodoTitle s value
  | .setNewTodoDescription value => setNewTodoDescription s value
  | .setEditingTodoTitle value => setEditingTodoTitle s value
  | .setEditingTodoDescription value => setEditingTodoDescription s value
  | .setIsCreateDialogOpen value => setIsCreateDialogOpen s value
  | .setIsEditDialogOpen value => setIsEditDialogOpen s value

/-- The state after a sequence of handler calls, each one running to its end
before the next starts. -/
def run (s : State) : List Action → State
  | [] => s
  | a :: rest => run (step s a) rest

/-- The records carried by a resolved reply holding one record. -/
def replyTodo : Reply Todo → List Todo
  | .resolved data => [data]
  | .rejected => []

/-- The records the service returns to one handler call made in state `s`:
the elements of a list response, a create response or an update response.
A call that validation stops before the request returns nothing. -/
def received (s : State) : Action → List Todo
  | .fetchTodos (.resolved data) => data
  | .createTodo reply => if trim s.newTodo.title = "" then [] else replyTodo reply
  | .updateTodo _ _ reply => replyTodo reply
  | .toggleComplete _ reply => replyTodo reply
  | .saveEdit reply =>
    match s.editingTodo with
    | some editingTodo => if trim editingTodo.title = "" then [] else replyTodo reply
    | none => []
  | _ => []

/-- All records the service returns during a sequence of handler calls that
starts in state `s`. -/
def receivedAll (s : State) : List Action → List Todo
  | [] => []
  | a :: rest => received s a ++ receivedAll (step s a) rest

/-- One keystroke in the edit dialog. -/
inductive DraftEdit where
  | title (value : String)
  | description (value : String)
deriving DecidableEq, Repr

/-- The state after one keystroke in the edit dialog. -/
def applyEdit (s : State) : DraftEdit → State
  | .title value => setEditingTodoTitle s value
  | .description value => setEditingTodoDescription s value

/-- The state after a sequence of keystrokes in the edit dialog. -/
def applyEdits (s : State) (edits : List DraftEdit) : State :=
  edits.foldl applyEdit s

/-! ## Responses that arrive out of order -/

/-- The response of a mutation that is in flight. -/
inductive Response where
  | createTodo (reply : Reply Todo)
  | updateTodo (todoId : String) (updates : Updates) (reply : Reply Todo)
  | deleteTodo (todoId : String) (reply : Reply Unit)
deriving DecidableEq, Repr

/-- The handler resumes on its response; `todos` is the collection it closed
over when it was called. -/
def merge (s : State) (todos : List Todo) : Response → State
  | .createTodo reply => createTodoDone s todos reply
  | .updateTodo todoId updates reply => updateTodoDone s todos todoId updates reply
  | .deleteTodo todoId reply => deleteTodoDone s todos todoId reply

/-- Whether the service call of the mutation succeeded. -/
def Response.succeeded : Response → Bool
  | .createTodo (.resolved _) => true
  | .updateTodo _ _ (.resolved _) => true
  | .deleteTodo _ (.resolved _) => true
  | _ => false

/-! ## Service that applies partial updates -/

/-- Modelled from the spec: the record the TodoService stores under each id
(the backend is not part of the component). -/
abbrev Store := String → Option Todo

/-- Modelled from the spec: a partial update overwrites exactly the fields
that the request body carries. -/
def applyUpdates (stored : Todo) (updates : Updates) : Todo :=
  { stored with
    title := updates.title.getD stored.title
    description := updates.description.getD stored.description
    completed := updates.completed.getD stored.completed }

/-- Modelled from the spec: the Update operation of the TodoService
(PUT /todos/id), applied faithfully: the reply is the stored record with
the sent fields overwritten, and that record is what is stored afterwards.
An id that is not stored is a service error. -/
def servicePut (store : Store) (todoId : String) (updates : Updates) : Reply Todo × Store :=
  match store todoId with
  | some stored =>
    (.resolved (applyUpdates stored updates),
      fun k => if k = todoId then some (applyUpdates stored updates) else store k)
  | none => (.rejected, store)

/-! ## Response bodies that are not checked -/

/-- What `response.data` holds when the promise resolves.  With its default
settings `axios` resolves on every 2xx status and hands the body over as it
came: a body of the shape the contract names, or any other document, kept
here as its text. -/
inductive Body (α : Type) where
  | expected (data : α)
  | other (text : String)
deriving DecidableEq, Repr

namespace Raw

/-- React state of the component with nothing assumed about response
bodies: `todos` holds whatever value `setTodos` was given. -/
structure State where
  todos : Body (List Todo) := .expected []
  newTodo : NewTodo := ⟨"", ""⟩
  editingTodo : Option Todo := none
  isCreateDialogOpen : Bool := false
  isEditDialogOpen : Bool := false
  toasts : List Toast := []
  requests : List Request := []
deriving DecidableEq, Repr

/-- The call `toast(t)`. -/
def toast (s : State) (t : Toast) : State :=
  { s with toasts := s.toasts ++ [t] }

/-- An `axios` call is issued. -/
def send (s : State) (r : Request) : State :=
  { s with requests := s.requests ++ [r] }

/-- Rest of `fetchTodos` after `await axios.get`: `setTodos(response.data)`
stores the body as it came; only a rejected promise enters the `catch`
block. -/
def fetchTodosDone (s : State) : Reply (Body (List Todo)) → State
  | .resolved data => { s with todos := data }
  | .rejected => toast s ⟨"Error", "Failed to fetch todos", some "destructive"⟩

/-- Handler `fetchTodos`. -/
def fetchTodos (s : State) (reply : Reply (Body (List Todo))) : State :=
  fetchTodosDone (send s .get) reply

/-- A state of the model with well-formed bodies, seen as a raw state. -/
def ofState (s : TodoList.State) : State :=
  { todos := .expected s.todos
    newTodo := s.newTodo
    editingTodo := s.editingTodo
    isCreateDialogOpen := s.isCreateDialogOpen
    isEditDialogOpen := s.isEditDialogOpen
    toasts := s.toasts
    requests := s.requests }

/-- An outcome with a well-formed body, seen as a raw outcome. -/
def ofReply : Reply (List Todo) → Reply (Body (List Todo))
  | .resolved data => .resolved (.expected data)
  | .rejected => .rejected

end Raw

/-! ## Sample data -/

/-- Sample record with id 1. -/
def todoA : Todo := ⟨"1", "Buy milk", "2% please", false, "2025-01-01T10:00:00"⟩

/-- Sample record with id 2. -/
def todoB : Todo := ⟨"2", "Walk dog", "", true, "2025-01-02T09:30:00"⟩

/-- Sample record with id 3. -/
def todoC : Todo := ⟨"3", "Pay rent", "before the 5th", false, "2025-01-03T08:00:00"⟩

/-- Sample state: the collection was fetched and holds two records. -/
def loaded : State := fetchTodos init (.resolved [todoA, todoB])

/-- Reply to a toggle of the sample record with id 1. -/
def todoADone : Todo := { todoA with completed := true }

/-- Reply to an edit of the title of the sample record with id 2. -/
def todoBRenamed : Todo := { todoB with title := "Walk the dog" }

/-- Sample state in which a toggle of record 1 and an edit of record 2 have
both been called and neither response has arrived. -/
def bothIssued : State :=
  send (send loaded (.put "1" { completed := some true }))
    (.put "2" { title := some "Walk the dog", description := some "" })

/-- Body of a 200 response that is not a list of todos. -/
def maintenanceBody : String := "\x7b\"detail\":\"maintenance\"\x7d"

/-- Sample record that shares id 1 with `todoA` and differs in its title. -/
def todoATwin : Todo := { todoA with title := "Buy bread" }

/-- Sample state whose collection holds two different records with id 1. -/
def twins : State := fetchTodos init (.resolved [todoA, todoATwin])

/-- Sample store of the service holding the two sample records. -/
def sampleStore : Store := fun k =>
  if k = "1" then some todoA else if k = "2" then some todoB else none

/-- Sample store after the service has applied a change of the title of
record 1 that the collection of the sample state does not show. -/
def renamedStore : Store :=
  (servicePut sampleStore "1" { title := some "Buy oat milk" }).2

/-- Record 1 as `renamedStore` holds it. -/
def todoARenamed : Todo := { todoA with title := "Buy oat milk" }

/-- The handler `toggleComplete` called on `todo` against the service that
applies updates faithfully: the state and the store after the response. -/
def toggleAgainst (s : State) (store : Store) (todo : Todo) : State × Store :=
  ((toggleComplete s todo (servicePut store todo.id { completed := some (!todo.completed) }).1),
    (servicePut store todo.id { completed := some (!todo.completed) }).2)

/-! ## Failed service calls -/

/-- On bodies of the expected shape and on rejected calls the raw
`fetchTodos` is the `fetchTodos` of the model with well-formed bodies. -/
theorem fetchTodos_raw_agrees (s : State) (reply : Reply (List Todo)) :
    Raw.fetchTodos (Raw.ofState s) (Raw.ofReply reply) = Raw.ofState (fetchTodos s reply) := by
  cases reply <;> rfl

/-- C1 (as stated, refuted): the GET of fetchTodos fails with a malformed
response, a 200 status whose body is not a list of todos.  The promise
resolves, the handler stores the body in `todos` in place of the two records
held before, and it emits no notification. -/
theorem malformed_fetch_replaces_todos :
    (Raw.ofState loaded).todos = .expected [todoA, todoB] ∧
    (Raw.fetchTodos (Raw.ofState loaded) (.resolved (.other maintenanceBody))).todos
      = .other maintenanceBody ∧
    (Raw.fetchTodos (Raw.ofState loaded) (.resolved (.other maintenanceBody))).todos
      ≠ (Raw.ofState loaded).todos ∧
    (Raw.fetchTodos (Raw.ofState loaded) (.resolved (.other maintenanceBody))).toasts = [] := by
  decide

/-- C1 (amended): when the service call of fetchTodos, createTodo, updateTodo
or deleteTodo is rejected (the awaited promise rejects), the collection
`todos` after the handler is the collection before it, and the handler emits
a notification with variant "destructive".  The same holds when the handler
resumes with a stale closure value `c`. -/
theorem failed_call_keeps_todos (s : State) (c : List Todo) (todoId : String)
    (updates : Updates) :
    ((fetchTodos s .rejected).todos = s.todos ∧
      (fetchTodos s .rejected).toasts =
        s.toasts ++ [⟨"Error", "Failed to fetch todos", some "destructive"⟩]) ∧
    ((createTodo s .rejected).todos = s.todos ∧
      (createTodo s .rejected).toasts =
        s.toasts ++ [⟨"Error",
          if trim s.newTodo.title = "" then "Todo title is required" else "Failed to create todo",
          some "destructive"⟩]) ∧
    ((updateTodo s todoId updates .rejected).todos = s.todos ∧
      (updateTodo s todoId updates .rejected).toasts =
        s.toasts ++ [⟨"Error", "Failed to update todo", some "destructive"⟩]) ∧
    ((deleteTodo s todoId .rejected).todos = s.todos ∧
      (deleteTodo s todoId .rejected).toasts =
        s.toasts ++ [⟨"Error", "Failed to delete todo", some "destructive"⟩]) ∧
    (fetchTodosDone s .rejected).todos = s.todos ∧
    (createTodoDone s c .rejected).todos = s.todos ∧
    (updateTodoDone s c todoId updates .rejected).todos = s.todos ∧
    (deleteTodoDone s c todoId .rejected).todos = s.todos := by
  refine ⟨⟨rfl, rfl⟩, ⟨?_, ?_⟩, ⟨rfl, rfl⟩, ⟨rfl, rfl⟩, rfl, rfl, rfl, rfl⟩
  · unfold createTodo
    split <;> rfl
  · unfold createTodo
    split <;> rfl

/-! ## Validation of the title -/

/-- A list loses all its elements to `dropWhile` from both ends exactly when
every element satisfies the test. -/
theorem dropWhile_both_ends_eq_nil {α : Type} (p : α → Bool) (l : List α) :
    ((l.dropWhile p).reverse.dropWhile p).reverse = [] ↔ ∀ x ∈ l, p x = true := by
  rw [List.reverse_eq_nil_iff, List.dropWhile_eq_nil_iff]
  constructor
  · intro h
    cases hd : l.dropWhile p with
    | nil => exact List.dropWhile_eq_nil_iff.mp hd
    | cons a rest =>
      have ha : p a = true := h a (by rw [hd]; simp)
      have hna : ¬ p a = true := by
        have := List.head_dropWhile_not p l (by rw [hd]; simp)
        simpa [hd] using this
      exact absurd ha hna
  · intro h x hx
    exact h x (List.dropWhile_subset p (List.mem_reverse.mp hx))

/-- A title trims to the empty string exactly when it consists of white space
only (the empty title included). -/
theorem trim_eq_empty_iff (t : String) :
    trim t = "" ↔ ∀ ch ∈ t.data, isWhiteSpace ch = true := by
  rw [← dropWhile_both_ends_eq_nil isWhiteSpace t.data]
  unfold trim
  constructor
  · intro h
    have := congrArg String.data h
    simpa using this
  · intro h
    rw [h]

/-- C2: when the title of the draft is empty after trimming (a title of white
space only included), createTodo and saveEdit make no service call, leave
`todos` unchanged and emit the destructive notification "Todo title is
required"; when the title is not empty after trimming, the service call is
made (a POST of the draft, a PUT of the title and description of the draft). -/
theorem blank_title_rejected (s : State) (reply : Reply Todo) :
    (trim s.newTodo.title = "" →
      (createTodo s reply).requests = s.requests ∧
      (createTodo s reply).todos = s.todos ∧
      (createTodo s reply).toasts =
        s.toasts ++ [⟨"Error", "Todo title is required", some "destructive"⟩]) ∧
    (trim s.newTodo.title ≠ "" →
      (createTodo s reply).requests = s.requests ++ [.post s.newTodo]) ∧
    (∀ editingTodo, s.editingTodo = some editingTodo →
      (trim editingTodo.title = "" →
        ∃ s1, saveEdit s reply = .ok s1 ∧
          s1.requests = s.requests ∧
          s1.todos = s.todos ∧
          s1.toasts = s.toasts ++ [⟨"Error", "Todo title is required", some "destructive"⟩]) ∧
      (trim editingTodo.title ≠ "" →
        ∃ s1, saveEdit s reply = .ok s1 ∧
          s1.requests = s.requests ++ [.put editingTodo.id
            { title := some editingTodo.title, description := some editingTodo.description }])) ∧
    (∀ title : String, (∀ ch ∈ title.data, isWhiteSpace ch = true) → trim title = "") := by
  refine ⟨?_, ?_, ?_, ?_⟩
  · intro h
    simp [createTodo, h, toast]
  · intro h
    cases reply <;> simp [createTodo, h, createTodoDone, toast, send]
  · intro editingTodo hedit
    constructor
    · intro h
      exact ⟨toast s ⟨"Error", "Todo title is required", some "destructive"⟩,
        by simp [saveEdit, hedit, h], rfl, rfl, rfl⟩
    · intro h
      refine ⟨saveEditDone (updateTodo s editingTodo.id
        { title := some editingTodo.title, description := some editingTodo.description } reply),
        by simp [saveEdit, hedit, h], ?_⟩
      cases reply <;> simp [saveEditDone, updateTodo, updateTodoDone, toast, send]
  · intro title h
    exact (trim_eq_empty_iff title).mpr h

/-- Witness of C2: a title of blanks and a tab is rejected by both handlers,
the title "Buy milk" reaches the service. -/
theorem blank_title_rejected_witness :
    ((createTodo (setNewTodoTitle loaded "  \t") (.resolved todoC)).requests = [.get] ∧
      (createTodo (setNewTodoTitle loaded "  \t") (.resolved todoC)).todos = [todoA, todoB] ∧
      (createTodo (setNewTodoTitle loaded "  \t") (.resolved todoC)).toasts =
        [⟨"Error", "Todo title is required", some "destructive"⟩]) ∧
    (createTodo (setNewTodoTitle loaded "Pay rent") (.resolved todoC)).requests =
      [.get, .post ⟨"Pay rent", ""⟩] ∧
    (∃ s1, saveEdit (setEditingTodoTitle (handleEdit loaded todoA) " ") (.resolved todoC) = .ok s1 ∧
      s1.requests = [.get] ∧ s1.todos = [todoA, todoB] ∧
      s1.toasts = [⟨"Error", "Todo title is required", some "destructive"⟩]) ∧
    (∃ s1, saveEdit (handleEdit loaded todoA) (.resolved todoC) = .ok s1 ∧
      s1.requests = [.get, .put "1" { title := some "Buy milk", description := some "2% please" }]) :=
  ⟨(blank_title_rejected (setNewTodoTitle loaded "  \t") (.resolved todoC)).1 (by decide),
    (blank_title_rejected (setNewTodoTitle loaded "Pay rent") (.resolved todoC)).2.1 (by decide),
    ((blank_title_rejected (setEditingTodoTitle (handleEdit loaded todoA) " ")
      (.resolved todoC)).2.2.1 ⟨"1", " ", "2% please", false, "2025-01-01T10:00:00"⟩ rfl).1
        (by decide),
    ((blank_title_rejected (handleEdit loaded todoA) (.resolved todoC)).2.2.1 todoA rfl).2
      (by decide)⟩

/-! ## Successful mutations -/

/-- C3: for a draft whose title is not blank, a createTodo whose service call
succeeds with the object `r` yields the collection `r :: c`: one record more,
`r` at index 0, and every record of `c` one place further in its previous
order. -/
theorem createTodo_prepends (s : State) (r : Todo) (h : trim s.newTodo.title ≠ "") :
    (createTodo s (.resolved r)).todos = r :: s.todos ∧
    (createTodo s (.resolved r)).todos.length = s.todos.length + 1 ∧
    (createTodo s (.resolved r)).todos[0]? = some r ∧
    (∀ k : Nat, (createTodo s (.resolved r)).todos[k + 1]? = s.todos[k]?) ∧
    (createTodo s (.resolved r)).requests = s.requests ++ [.post s.newTodo] := by
  have hc : (createTodo s (.resolved r)).todos = r :: s.todos := by
    simp [createTodo, h, createTodoDone, toast, send]
  refine ⟨hc, by rw [hc]; rfl, by rw [hc]; simp, fun k => by rw [hc]; simp, ?_⟩
  simp [createTodo, h, createTodoDone, toast, send]

/-- Witness of C3: creating "Pay rent" in the sample state. -/
theorem createTodo_prepends_witness :
    (createTodo (setNewTodoTitle loaded "Pay rent") (.resolved todoC)).todos
      = todoC :: (setNewTodoTitle loaded "Pay rent").todos ∧
    (createTodo (setNewTodoTitle loaded "Pay rent") (.resolved todoC)).todos.length
      = (setNewTodoTitle loaded "Pay rent").todos.length + 1 ∧
    (createTodo (setNewTodoTitle loaded "Pay rent") (.resolved todoC)).todos[0]? = some todoC ∧
    (∀ k : Nat, (createTodo (setNewTodoTitle loaded "Pay rent") (.resolved todoC)).todos[k + 1]?
      = (setNewTodoTitle loaded "Pay rent").todos[k]?) ∧
    (createTodo (setNewTodoTitle loaded "Pay rent") (.resolved todoC)).requests
      = (setNewTodoTitle loaded "Pay rent").requests ++
        [.post (setNewTodoTitle loaded "Pay rent").newTodo] :=
  createTodo_prepends (setNewTodoTitle loaded "Pay rent") todoC (by decide)

/-- C4: an updateTodo(i, u) whose service call succeeds with the object `r`
yields a collection of the same length in which, position by position, a
record whose id is `i` is replaced by `r` and a record with another id is
unchanged; the result does not depend on the fields `u` that were sent. -/
theorem updateTodo_replaces (s : State) (i : String) (u : Updates) (r : Todo) :
    (updateTodo s i u (.resolved r)).todos.length = s.todos.length ∧
    (∀ (k : Nat) (t : Todo), s.todos[k]? = some t →
      (updateTodo s i u (.resolved r)).todos[k]? = some (if t.id = i then r else t)) ∧
    (∀ v : Updates, (updateTodo s i v (.resolved r)).todos = (updateTodo s i u (.resolved r)).todos) := by
  have hc : ∀ v : Updates, (updateTodo s i v (.resolved r)).todos
      = s.todos.map (fun todo => if todo.id = i then r else todo) := by
    intro v
    unfold updateTodo updateTodoDone
    cases v.completed <;> rfl
  refine ⟨by rw [hc]; simp, ?_, fun v => by rw [hc, hc]⟩
  intro k t hk
  simp [hc, hk]

/-- Witness of C4: the record with id 1 of the sample state is replaced by the
reply, the record with id 2 stays. -/
theorem updateTodo_replaces_witness :
    (updateTodo loaded "1" { title := some "Buy oat milk" } (.resolved todoC)).todos[0]?
      = some todoC ∧
    (updateTodo loaded "1" { title := some "Buy oat milk" } (.resolved todoC)).todos[1]?
      = some todoB :=
  ⟨(updateTodo_replaces loaded "1" { title := some "Buy oat milk" } todoC).2.1 0 todoA rfl,
    (updateTodo_replaces loaded "1" { title := some "Buy oat milk" } todoC).2.1 1 todoB rfl⟩

/-- With pairwise distinct ids, filtering out an id that is present removes
one record. -/
theorem length_filter_ne_id (c : List Todo) (i : String) (hnd : (c.map Todo.id).Nodup)
    (hex : ∃ t ∈ c, t.id = i) :
    (c.filter (fun todo => todo.id ≠ i)).length + 1 = c.length := by
  induction c with
  | nil => simp at hex
  | cons a rest ih =>
    rw [List.map_cons, List.nodup_cons] at hnd
    by_cases ha : a.id = i
    · have hrest : rest.filter (fun todo => todo.id ≠ i) = rest := by
        rw [List.filter_eq_self]
        intro x hx
        have : x.id ≠ i := by
          intro hxi
          exact hnd.1 (List.mem_map.mpr ⟨x, hx, by rw [hxi, ha]⟩)
        simpa using this
      rw [List.filter_cons_of_neg (by simpa using ha), hrest]
      rfl
    · have hex1 : ∃ t ∈ rest, t.id = i := by
        obtain ⟨t, ht, hti⟩ := hex
        rcases List.mem_cons.mp ht with rfl | ht1
        · exact absurd hti ha
        · exact ⟨t, ht1, hti⟩
      have := ih hnd.2 hex1
      rw [List.filter_cons_of_pos (by simpa using ha)]
      simp only [List.length_cons]
      omega

/-- C5: for a collection with pairwise distinct ids, a deleteTodo(i) whose
service call succeeds yields a collection with no record of id `i`, holding
every other record in its original relative order; one record is removed when
`i` is present, and the collection is unchanged when no record has id `i`. -/
theorem deleteTodo_removes (s : State) (i : String) (hnd : (s.todos.map Todo.id).Nodup) :
    (∀ t ∈ (deleteTodo s i (.resolved ())).todos, t.id ≠ i) ∧
    (∀ t ∈ s.todos, t.id ≠ i → t ∈ (deleteTodo s i (.resolved ())).todos) ∧
    (deleteTodo s i (.resolved ())).todos.Sublist s.todos ∧
    ((∃ t ∈ s.todos, t.id = i) →
      (deleteTodo s i (.resolved ())).todos.length + 1 = s.todos.length) ∧
    ((∀ t ∈ s.todos, t.id ≠ i) → (deleteTodo s i (.resolved ())).todos = s.todos) := by
  have hc : (deleteTodo s i (.resolved ())).todos
      = s.todos.filter (fun todo => todo.id ≠ i) := rfl
  rw [hc]
  refine ⟨?_, ?_, List.filter_sublist _, length_filter_ne_id s.todos i hnd, ?_⟩
  · intro t ht
    simpa using (List.mem_filter.mp ht).2
  · intro t ht hti
    exact List.mem_filter.mpr ⟨ht, by simpa using hti⟩
  · intro h
    rw [List.filter_eq_self]
    intro x hx
    simpa using h x hx

/-- Witness of C5: deleting id 1 from the sample state leaves the record
with id 2. -/
theorem deleteTodo_removes_witness :
    (loaded.todos.map Todo.id).Nodup ∧
    (∃ t ∈ loaded.todos, t.id = "1") ∧
    (deleteTodo loaded "1" (.resolved ())).todos.length + 1 = loaded.todos.length ∧
    (deleteTodo loaded "1" (.resolved ())).todos = [todoB] :=
  ⟨by decide, ⟨todoA, by decide, rfl⟩,
    (deleteTodo_removes loaded "1" (by decide)).2.2.2.1 ⟨todoA, by decide, rfl⟩, by decide⟩

/-! ## Two mutations in flight -/

/-- C6 (as stated, refuted): a toggle of record 1 and an edit of record 2 are
both called on the collection of the sample state before either response
arrives.  Whichever response arrives first, the final collection holds only
the reply that arrived last; the other position holds the old record. -/
theorem racing_updates_lose_one :
    (updateTodoDone
      (updateTodoDone bothIssued loaded.todos "1" { completed := some true } (.resolved todoADone))
      loaded.todos "2" { title := some "Walk the dog", description := some "" }
      (.resolved todoBRenamed)).todos = [todoA, todoBRenamed] ∧
    (updateTodoDone
      (updateTodoDone bothIssued loaded.todos "2"
        { title := some "Walk the dog", description := some "" } (.resolved todoBRenamed))
      loaded.todos "1" { completed := some true } (.resolved todoADone)).todos
        = [todoADone, todoB] ∧
    ¬ ((updateTodoDone
      (updateTodoDone bothIssued loaded.todos "1" { completed := some true } (.resolved todoADone))
      loaded.todos "2" { title := some "Walk the dog", description := some "" }
      (.resolved todoBRenamed)).todos[0]? = some todoADone) ∧
    ¬ ((updateTodoDone
      (updateTodoDone bothIssued loaded.todos "2"
        { title := some "Walk the dog", description := some "" } (.resolved todoBRenamed))
      loaded.todos "1" { completed := some true } (.resolved todoADone)).todos[1]?
        = some todoBRenamed) := by
  decide

/-- C6 (amended): two mutations are called on the same collection `todos` before
either response arrives.  After both responses have been merged, the second
one having succeeded, the collection is what the response that arrived last
makes of `todos` on its own.  For two updateTodo calls on ids `i ≠ j` whose reply
`rj` arrives last, every position of a record with id `j` holds `rj` and
every position of a record with id `i` holds the record of `todos`. -/
theorem later_response_overwrites (s : State) (todos : List Todo) (first second : Response)
    (h : second.succeeded = true) :
    (merge (merge s todos first) todos second).todos = (merge s todos second).todos ∧
    (∀ (i j : String) (ui uj : Updates) (ri rj : Todo), i ≠ j →
      ∀ (k : Nat) (t : Todo), todos[k]? = some t →
        (t.id = j →
          (updateTodoDone (updateTodoDone s todos i ui (.resolved ri)) todos j uj (.resolved rj)).todos[k]?
            = some rj) ∧
        (t.id = i →
          (updateTodoDone (updateTodoDone s todos i ui (.resolved ri)) todos j uj (.resolved rj)).todos[k]?
            = some t)) := by
  constructor
  · cases second with
    | createTodo reply =>
      cases reply with
      | resolved data => rfl
      | rejected => simp [Response.succeeded] at h
    | updateTodo todoId updates reply =>
      cases reply with
      | resolved data =>
        simp only [merge, updateTodoDone]
        cases updates.completed <;> rfl
      | rejected => simp [Response.succeeded] at h
    | deleteTodo todoId reply =>
      cases reply with
      | resolved data => rfl
      | rejected => simp [Response.succeeded] at h
  · intro i j ui uj ri rj hij k t hk
    have hc : (updateTodoDone (updateTodoDone s todos i ui (.resolved ri)) todos j uj (.resolved rj)).todos
        = todos.map (fun todo => if todo.id = j then rj else todo) := by
      simp only [updateTodoDone]
      cases uj.completed <;> rfl
    rw [hc]
    constructor
    · intro htj
      simp [hk, htj]
    · intro hti
      have : t.id ≠ j := by rw [hti]; exact hij
      simp [hk, this]

/-- Witness of C6 (amended): the two sample updates, the edit of record 2
arriving last. -/
theorem later_response_overwrites_witness :
    (merge (merge bothIssued loaded.todos
        (.updateTodo "1" { completed := some true } (.resolved todoADone)))
      loaded.todos
      (.updateTodo "2" { title := some "Walk the dog", description := some "" }
        (.resolved todoBRenamed))).todos
      = (merge bothIssued loaded.todos
        (.updateTodo "2" { title := some "Walk the dog", description := some "" }
          (.resolved todoBRenamed))).todos ∧
    (updateTodoDone
      (updateTodoDone bothIssued loaded.todos "1" { completed := some true } (.resolved todoADone))
      loaded.todos "2" { title := some "Walk the dog", description := some "" }
      (.resolved todoBRenamed)).todos[0]? = some todoA :=
  ⟨(later_response_overwrites bothIssued loaded.todos
      (.updateTodo "1" { completed := some true } (.resolved todoADone))
      (.updateTodo "2" { title := some "Walk the dog", description := some "" }
        (.resolved todoBRenamed)) rfl).1,
    ((later_response_overwrites bothIssued loaded.todos
      (.updateTodo "1" { completed := some true } (.resolved todoADone))
      (.updateTodo "2" { title := some "Walk the dog", description := some "" }
        (.resolved todoBRenamed)) rfl).2 "1" "2" { completed := some true }
        { title := some "Walk the dog", description := some "" } todoADone todoBRenamed
        (by decide) 0 todoA rfl).2 rfl⟩

/-! ## Notifications of an update -/

/-- C7 (the code at the failing input): the draft of record 1 is renamed and
saved, and the service call fails.  The handler saveEdit emits the
destructive notification "Failed to update todo" and then the success
notification "Todo updated successfully"; it closes the dialog and drops the
draft.  The collection is unchanged. -/
theorem saveEdit_failed_reports_success :
    ∃ s1, saveEdit (setEditingTodoTitle (handleEdit loaded todoA) "Buy oat milk") .rejected
        = .ok s1 ∧
      s1.toasts = [⟨"Error", "Failed to update todo", some "destructive"⟩,
        ⟨"Success", "Todo updated successfully", none⟩] ∧
      s1.requests = [.get, .put "1" { title := some "Buy oat milk", description := some "2% please" }] ∧
      s1.todos = [todoA, todoB] ∧
      s1.editingTodo = none ∧
      s1.isEditDialogOpen = false :=
  ⟨saveEditDone (updateTodo (setEditingTodoTitle (handleEdit loaded todoA) "Buy oat milk") "1"
      { title := some "Buy oat milk", description := some "2% please" } .rejected),
    rfl, by decide, by decide, by decide, by decide, by decide⟩

/-! ## Toggling twice -/

/-- Replacing by id and then looking up the same id finds the replacement,
when some record carries the id and so does the replacement. -/
theorem find?_map_replace (l : List Todo) (i : String) (r : Todo) (hr : r.id = i)
    (hex : ∃ x ∈ l, x.id = i) :
    (l.map (fun todo => if todo.id = i then r else todo)).find? (fun x => x.id = i) = some r := by
  induction l with
  | nil => simp at hex
  | cons a rest ih =>
    by_cases ha : a.id = i
    · simp [ha, hr]
    · have hex1 : ∃ x ∈ rest, x.id = i := by
        obtain ⟨x, hx, hxi⟩ := hex
        rcases List.mem_cons.mp hx with rfl | hx1
        · exact absurd hxi ha
        · exact ⟨x, hx1, hxi⟩
      simp only [List.map_cons, ha, if_false, List.find?_cons, decide_False]
      exact ih hex1

/-- Replacing by id every record that already equals the replacement changes
nothing. -/
theorem map_replace_self (l : List Todo) (i : String) (t : Todo)
    (h : ∀ x ∈ l, x.id = i → x = t) :
    l.map (fun todo => if todo.id = i then t else todo) = l := by
  induction l with
  | nil => rfl
  | cons a rest ih =>
    rw [List.map_cons, ih (fun x hx => h x (List.mem_cons_of_mem a hx))]
    by_cases ha : a.id = i
    · rw [if_pos ha, h a (List.mem_cons_self a rest) ha]
    · rw [if_neg ha]

/-- Replacing by id twice with replacements that carry the id is replacing
once with the second. -/
theorem map_replace_twice (l : List Todo) (i : String) (r1 r2 : Todo) (h1 : r1.id = i) :
    (l.map (fun todo => if todo.id = i then r1 else todo)).map
      (fun todo => if todo.id = i then r2 else todo)
      = l.map (fun todo => if todo.id = i then r2 else todo) := by
  rw [List.map_map]
  apply List.map_congr_left
  intro x _
  by_cases hx : x.id = i <;> simp [hx, h1]

/-- C8 (as stated, refuted): against the service that applies each partial
update faithfully, record 1 is toggled and the record then found under id 1
is toggled again.  When the service stores record 1 under another title than
the collection shows, the flag is back at its value and the title of the
record has changed; when the collection holds a second record with id 1, that
record is overwritten. -/
theorem toggle_twice_changes_other_fields :
    ((toggleAgainst loaded renamedStore todoA).1.todos.find? (fun x => x.id = "1")
        = some { todoARenamed with completed := true } ∧
      (toggleAgainst (toggleAgainst loaded renamedStore todoA).1
        (toggleAgainst loaded renamedStore todoA).2
        { todoARenamed with completed := true }).1.todos = [todoARenamed, todoB] ∧
      todoARenamed.completed = todoA.completed ∧
      todoARenamed.title ≠ todoA.title ∧
      loaded.todos = [todoA, todoB]) ∧
    ((toggleAgainst twins sampleStore todoA).1.todos.find? (fun x => x.id = "1")
        = some todoADone ∧
      (toggleAgainst (toggleAgainst twins sampleStore todoA).1
        (toggleAgainst twins sampleStore todoA).2 todoADone).1.todos = [todoA, todoA] ∧
      twins.todos = [todoA, todoATwin] ∧
      todoATwin ≠ todoA) := by
  decide

/-- C8 (amended): against a service that applies each partial update faithfully, with
every record of the collection that carries the id of `t` being the record
the service stores under that id: toggleComplete on `t` sends the negated
flag and stores the reply under the id of `t`; toggleComplete on the record
`t1` now found under that id returns the collection to what it was, so the
flag `completed` is back at its value and every other field and every other
record is unchanged. -/
theorem toggleComplete_twice (s : State) (store : Store) (t : Todo) (ht : t ∈ s.todos)
    (hstored : ∀ x ∈ s.todos, x.id = t.id → store t.id = some x) :
    ∃ t1 : Todo,
      (toggleAgainst s store t).1.todos.find? (fun x => x.id = t.id) = some t1 ∧
      t1 = { t with completed := !t.completed } ∧
      (toggleAgainst s store t).1.requests =
        s.requests ++ [.put t.id { completed := some (!t.completed) }] ∧
      (∀ (k : Nat) (x : Todo), s.todos[k]? = some x → x.id ≠ t.id →
        (toggleAgainst s store t).1.todos[k]? = some x) ∧
      (toggleAgainst (toggleAgainst s store t).1 (toggleAgainst s store t).2 t1).1.todos
        = s.todos := by
  have hst : store t.id = some t := hstored t ht rfl
  have hput : servicePut store t.id { completed := some (!t.completed) }
      = (.resolved { t with completed := !t.completed },
          fun k => if k = t.id then some { t with completed := !t.completed } else store k) := by
    simp [servicePut, hst, applyUpdates]
  have h1 : (toggleAgainst s store t).1.todos
      = s.todos.map (fun todo => if todo.id = t.id then { t with completed := !t.completed }
          else todo) := by
    simp [toggleAgainst, hput, toggleComplete, updateTodo, updateTodoDone, toast, send]
  have h2 : (toggleAgainst s store t).2
      = fun k => if k = t.id then some { t with completed := !t.completed } else store k := by
    simp [toggleAgainst, hput]
  refine ⟨{ t with completed := !t.completed }, ?_, rfl, ?_, ?_, ?_⟩
  · rw [h1]
    exact find?_map_replace s.todos t.id _ rfl ⟨t, ht, rfl⟩
  · simp [toggleAgainst, hput, toggleComplete, updateTodo, updateTodoDone, toast, send]
  · intro k x hk hx
    simp [h1, hk, hx]
  · have hput2 : servicePut (toggleAgainst s store t).2 t.id { completed := some (!(!t.completed)) }
        = (.resolved t, fun k => if k = t.id then some t else (toggleAgainst s store t).2 k) := by
      simp [servicePut, h2, applyUpdates]
    have h3 : (toggleAgainst (toggleAgainst s store t).1 (toggleAgainst s store t).2
          { t with completed := !t.completed }).1.todos
        = (toggleAgainst s store t).1.todos.map (fun todo => if todo.id = t.id then t else todo) := by
      simp [toggleAgainst, toggleComplete, updateTodo, updateTodoDone, toast, send] at hput2 ⊢
      simp [hput2]
    rw [h3, h1, map_replace_twice s.todos t.id { t with completed := !t.completed } t rfl]
    apply map_replace_self
    intro x hx hxi
    have := hstored x hx hxi
    rw [hst] at this
    exact (Option.some.inj this).symm

/-- Witness of C8 (amended): record 1 of the sample state is toggled twice against the
sample store. -/
theorem toggleComplete_twice_witness :
    ∃ t1 : Todo,
      (toggleAgainst loaded sampleStore todoA).1.todos.find? (fun x => x.id = todoA.id) = some t1 ∧
      t1 = { todoA with completed := !todoA.completed } ∧
      (toggleAgainst loaded sampleStore todoA).1.requests =
        loaded.requests ++ [.put todoA.id { completed := some (!todoA.completed) }] ∧
      (∀ (k : Nat) (x : Todo), loaded.todos[k]? = some x → x.id ≠ todoA.id →
        (toggleAgainst loaded sampleStore todoA).1.todos[k]? = some x) ∧
      (toggleAgainst (toggleAgainst loaded sampleStore todoA).1
        (toggleAgainst loaded sampleStore todoA).2 t1).1.todos = loaded.todos :=
  toggleComplete_twice loaded sampleStore todoA (by decide) (by decide)

/-! ## Origin of the records -/

/-- A record held after one handler call was held before it or was returned
by the service to that call. -/
theorem step_todos_mem (s : State) (a : Action) :
    ∀ t ∈ (step s a).todos, t ∈ s.todos ∨ t ∈ received s a := by
  intro t ht
  cases a with
  | fetchTodos reply =>
    cases reply with
    | resolved data => exact Or.inr ht
    | rejected => exact Or.inl ht
  | createTodo reply =>
    by_cases hb : trim s.newTodo.title = ""
    · left
      simpa [step, createTodo, hb, toast] using ht
    · cases reply with
      | resolved data =>
        have h1 : t = data ∨ t ∈ s.todos := by
          simpa [step, createTodo, hb, createTodoDone, toast, send] using ht
        rcases h1 with h1 | h1
        · right
          simp [received, hb, replyTodo, h1]
        · exact Or.inl h1
      | rejected =>
        left
        simpa [step, createTodo, hb, createTodoDone, toast, send] using ht
  | updateTodo todoId updates reply =>
    cases reply with
    | resolved data =>
      have h1 : t ∈ s.todos.map (fun todo => if todo.id = todoId then data else todo) := by
        simp only [step, updateTodo, updateTodoDone] at ht
        cases hc : updates.completed <;> simpa [hc, toast, send] using ht
      obtain ⟨x, hx, hxt⟩ := List.mem_map.mp h1
      by_cases hi : x.id = todoId
      · right
        simp [hi] at hxt
        simp [received, replyTodo, hxt]
      · left
        simp [hi] at hxt
        rw [← hxt]
        exact hx
    | rejected => exact Or.inl ht
  | deleteTodo todoId reply =>
    cases reply with
    | resolved data =>
      left
      have h1 : t ∈ s.todos.filter (fun todo => todo.id ≠ todoId) := ht
      exact (List.mem_filter.mp h1).1
    | rejected => exact Or.inl ht
  | toggleComplete todo reply =>
    cases reply with
    | resolved data =>
      have h1 : t ∈ s.todos.map (fun x => if x.id = todo.id then data else x) := ht
      obtain ⟨x, hx, hxt⟩ := List.mem_map.mp h1
      by_cases hi : x.id = todo.id
      · right
        simp [hi] at hxt
        simp [received, replyTodo, hxt]
      · left
        simp [hi] at hxt
        rw [← hxt]
        exact hx
    | rejected => exact Or.inl ht
  | handleEdit todo => exact Or.inl ht
  | saveEdit reply =>
    cases he : s.editingTodo with
    | none =>
      left
      simpa [step, saveEdit, he] using ht
    | some editingTodo =>
      by_cases hb : trim editingTodo.title = ""
      · left
        simpa [step, saveEdit, he, hb, toast] using ht
      · cases reply with
        | resolved data =>
          have h1 : t ∈ s.todos.map
              (fun x => if x.id = editingTodo.id then data else x) := by
            simpa [step, saveEdit, he, hb, saveEditDone, updateTodo, updateTodoDone, toast, send]
              using ht
          obtain ⟨x, hx, hxt⟩ := List.mem_map.mp h1
          by_cases hi : x.id = editingTodo.id
          · right
            simp [hi] at hxt
            simp [received, he, hb, replyTodo, hxt]
          · left
            simp [hi] at hxt
            rw [← hxt]
            exact hx
        | rejected =>
          left
          simpa [step, saveEdit, he, hb, saveEditDone, updateTodo, updateTodoDone, toast, send]
            using ht
  | setNewTodoTitle value => exact Or.inl ht
  | setNewTodoDescription value => exact Or.inl ht
  | setEditingTodoTitle value =>
    left
    cases he : s.editingTodo <;> simpa [step, setEditingTodoTitle, he] using ht
  | setEditingTodoDescription value =>
    left
    cases he : s.editingTodo <;> simpa [step, setEditingTodoDescription, he] using ht
  | setIsCreateDialogOpen value => exact Or.inl ht
  | setIsEditDialogOpen value => exact Or.inl ht

/-- A record held after a sequence of handler calls was held before it or was
returned by the service during it. -/
theorem run_todos_mem (actions : List Action) :
    ∀ (s : State), ∀ t ∈ (run s actions).todos, t ∈ s.todos ∨ t ∈ receivedAll s actions := by
  induction actions with
  | nil =>
    intro s t ht
    exact Or.inl ht
  | cons a rest ih =>
    intro s t ht
    rcases ih (step s a) t ht with h | h
    · rcases step_todos_mem s a t h with h1 | h1
      · exact Or.inl h1
      · exact Or.inr (List.mem_append_left _ h1)
    · exact Or.inr (List.mem_append_right _ h)

/-- Running a sequence and then one more call. -/
theorem run_append_one (actions : List Action) (a : Action) :
    ∀ s : State, run s (actions ++ [a]) = step (run s actions) a := by
  induction actions with
  | nil => intro s; rfl
  | cons b rest ih => intro s; exact ih (step s b)

/-- C9: starting from the empty collection, after any sequence of handler
calls (fetchTodos, createTodo, updateTodo, deleteTodo, toggleComplete,
handleEdit, saveEdit and the dialog handlers) with arbitrary service outcomes,
every record of `todos` is an object the service returned during the sequence,
so every id in `todos` is the id of a returned object; and a fetchTodos that
succeeds makes `todos` the list response. -/
theorem todos_from_service (actions : List Action) :
    (∀ t ∈ (run init actions).todos, t ∈ receivedAll init actions) ∧
    (∀ i ∈ (run init actions).todos.map Todo.id, i ∈ (receivedAll init actions).map Todo.id) ∧
    (∀ data : List Todo,
      (run init (actions ++ [.fetchTodos (.resolved data)])).todos = data) := by
  have hmem : ∀ t ∈ (run init actions).todos, t ∈ receivedAll init actions := by
    intro t ht
    rcases run_todos_mem actions init t ht with h | h
    · simp [init] at h
    · exact h
  refine ⟨hmem, ?_, ?_⟩
  · intro i hi
    obtain ⟨t, ht, hti⟩ := List.mem_map.mp hi
    exact List.mem_map.mpr ⟨t, hmem t ht, hti⟩
  · intro data
    rw [run_append_one]
    rfl

/-- Witness of C9: a list is fetched, a record is created, record 1 is
edited and saved, record 2 is deleted; the record created is in `todos` and
is one of the objects returned. -/
theorem todos_from_service_witness :
    todoC ∈ (run init [.fetchTodos (.resolved [todoA, todoB]), .setNewTodoTitle "Pay rent",
      .createTodo (.resolved todoC), .handleEdit todoA, .setEditingTodoTitle "Buy oat milk",
      .saveEdit (.resolved todoADone), .deleteTodo "2" (.resolved ())]).todos ∧
    todoC ∈ receivedAll init [.fetchTodos (.resolved [todoA, todoB]), .setNewTodoTitle "Pay rent",
      .createTodo (.resolved todoC), .handleEdit todoA, .setEditingTodoTitle "Buy oat milk",
      .saveEdit (.resolved todoADone), .deleteTodo "2" (.resolved ())] :=
  ⟨by decide,
    (todos_from_service [.fetchTodos (.resolved [todoA, todoB]), .setNewTodoTitle "Pay rent",
      .createTodo (.resolved todoC), .handleEdit todoA, .setEditingTodoTitle "Buy oat milk",
      .saveEdit (.resolved todoADone), .deleteTodo "2" (.resolved ())]).1 todoC (by decide)⟩

/-! ## The draft of the edit dialog -/

/-- Keystrokes in the edit dialog change neither `todos` nor whether a draft
is open. -/
theorem applyEdits_frame (edits : List DraftEdit) :
    ∀ s : State, (applyEdits s edits).todos = s.todos ∧
      (applyEdits s edits).editingTodo.isSome = s.editingTodo.isSome ∧
      (applyEdits s edits).requests = s.requests := by
  induction edits with
  | nil => intro s; exact ⟨rfl, rfl, rfl⟩
  | cons e rest ih =>
    intro s
    have h1 : (applyEdit s e).todos = s.todos ∧
        (applyEdit s e).editingTodo.isSome = s.editingTodo.isSome ∧
        (applyEdit s e).requests = s.requests := by
      cases e <;> cases he : s.editingTodo <;>
        simp [applyEdit, setEditingTodoTitle, setEditingTodoDescription, he]
    have h2 := ih (applyEdit s e)
    show (applyEdits (applyEdit s e) rest).todos = s.todos ∧
      (applyEdits (applyEdit s e) rest).editingTodo.isSome = s.editingTodo.isSome ∧
      (applyEdits (applyEdit s e) rest).requests = s.requests
    rw [h2.1, h2.2.1, h2.2.2]
    exact h1

/-- C10: after handleEdit(t) and any sequence of edits of the title and the
description of the draft, the collection `todos` is the one before
handleEdit and no service call has been made; it is still that collection
when the dialog is closed without saving, when saveEdit rejects a blank title,
and when the update of saveEdit fails.  Only a saveEdit whose update succeeds
changes it, to the collection with the reply in place of the edited record. -/
theorem draft_edits_keep_todos (s : State) (t : Todo) (edits : List DraftEdit)
    (reply : Reply Todo) :
    (applyEdits (handleEdit s t) edits).todos = s.todos ∧
    (applyEdits (handleEdit s t) edits).requests = s.requests ∧
    (setIsEditDialogOpen (applyEdits (handleEdit s t) edits) false).todos = s.todos ∧
    (∃ draft, (applyEdits (handleEdit s t) edits).editingTodo = some draft ∧
      (trim draft.title = "" →
        ∃ s1, saveEdit (applyEdits (handleEdit s t) edits) reply = .ok s1 ∧
          s1.todos = s.todos) ∧
      (trim draft.title ≠ "" →
        (∃ s1, saveEdit (applyEdits (handleEdit s t) edits) .rejected = .ok s1 ∧
          s1.todos = s.todos) ∧
        (∀ r : Todo, ∃ s1,
          saveEdit (applyEdits (handleEdit s t) edits) (.resolved r) = .ok s1 ∧
          s1.todos = s.todos.map (fun todo => if todo.id = draft.id then r else todo)))) := by
  have hf := applyEdits_frame edits (handleEdit s t)
  have htodos : (applyEdits (handleEdit s t) edits).todos = s.todos := hf.1
  refine ⟨htodos, hf.2.2, htodos, ?_⟩
  cases he : (applyEdits (handleEdit s t) edits).editingTodo with
  | none =>
    have := hf.2.1
    rw [he] at this
    simp [handleEdit] at this
  | some draft =>
    refine ⟨draft, rfl, ?_, ?_⟩
    · intro hb
      exact ⟨toast (applyEdits (handleEdit s t) edits)
        ⟨"Error", "Todo title is required", some "destructive"⟩,
        by simp [saveEdit, he, hb], htodos⟩
    · intro hb
      constructor
      · exact ⟨saveEditDone (updateTodo (applyEdits (handleEdit s t) edits) draft.id
          { title := some draft.title, description := some draft.description } .rejected),
          by simp [saveEdit, he, hb], htodos⟩
      · intro r
        exact ⟨saveEditDone (updateTodo (applyEdits (handleEdit s t) edits) draft.id
          { title := some draft.title, description := some draft.description } (.resolved r)),
          by simp [saveEdit, he, hb],
          by simp [saveEditDone, updateTodo, updateTodoDone, toast, send, htodos]⟩

/-- Witness of C10: the draft of record 1 is blanked, then retitled; the
collection of the sample state stays as it is while the draft is edited and
when the blank title is rejected. -/
theorem draft_edits_keep_todos_witness :
    (applyEdits (handleEdit loaded todoA) [.title "", .description "oat", .title "Buy oat milk"]).todos
      = [todoA, todoB] ∧
    (∃ s1, saveEdit (applyEdits (handleEdit loaded todoA) [.description "oat", .title " "])
        (.resolved todoADone) = .ok s1 ∧ s1.todos = loaded.todos) :=
  ⟨(draft_edits_keep_todos loaded todoA [.title "", .description "oat", .title "Buy oat milk"]
      .rejected).1,
    by
      obtain ⟨draft, hd, hblank, _⟩ :=
        (draft_edits_keep_todos loaded todoA [.description "oat", .title " "]
          (.resolved todoADone)).2.2.2
      have hdraft : draft = ⟨"1", " ", "oat", false, "2025-01-01T10:00:00"⟩ := by
        have h0 : (applyEdits (handleEdit loaded todoA) [.description "oat", .title " "]).editingTodo
            = some ⟨"1", " ", "oat", false, "2025-01-01T10:00:00"⟩ := by decide
        rw [h0] at hd
        exact (Option.some.inj hd).symm
      exact hblank (by rw [hdraft]; decide)⟩

end TodoList
